import Mathlib

/-!
Verification of the `system_monitor` crate (TrackLab).

Shallow embedding conventions:
* `u64` counters are modelled as `Nat`; Rust's `saturating_sub` is `Nat`
  subtraction (which is saturating).  Accumulating `+=` sums are modelled as
  `Nat` addition (physical counter sums are far below `2^64`).
* `f64` arithmetic on counter deltas and percentages is modelled over `Rat`;
  the casts `f64 as u64`, `u64 as i64` and `i64 as u64` are modelled
  explicitly (`f64AsU64`, `u64AsI64`, `i64AsU64`).
* `std::time::Instant` is a `Rat` (seconds); `Instant::duration_since`
  saturates at zero, modelled by `durationSince`.
* A `HashMap<String, MetricValue>` snapshot is an association list; each
  `insert` prepends, so `List.lookup` returns the most recent insert,
  matching `HashMap::insert` replacement semantics.  `extend` prepends the
  extension block for the same reason.
* Platform reads (sysinfo totals, procfs diskstats, connection counts) are
  inputs to the sampling functions; a fallible read is an `Option`.
-/

/-- Tagged metric value (metrics.rs `MetricValue`): Int64, Float64, Text. -/
inductive MetricValue where
  | int : Int → MetricValue
  | float : Rat → MetricValue
  | str : String → MetricValue
deriving DecidableEq, Repr

/-- A metric snapshot: association list from key to value. -/
abbrev Metrics := List (String × MetricValue)

/-- Boolean prefix test on character lists (Rust `str::starts_with`). -/
def leadsWith : List Char → List Char → Bool
  | [], _ => true
  | _ :: _, [] => false
  | a :: as, b :: bs => a == b && leadsWith as bs

/-- Rust `s.starts_with(pre)`. -/
def strStarts (s pre : String) : Bool := leadsWith pre.toList s.toList

/-- Rust `s.ends_with(suf)`. -/
def strEnds (s suf : String) : Bool := leadsWith suf.toList.reverse s.toList.reverse

/-- Rust cast `u64 as i64` (bitwise two's complement reinterpretation). -/
def u64AsI64 (n : Nat) : Int := if n < 2 ^ 63 then (n : Int) else (n : Int) - 2 ^ 64

/-- Rust cast `i64 as u64` (bitwise two's complement reinterpretation). -/
def i64AsU64 (v : Int) : Nat := (v % 2 ^ 64).toNat

/-- Rust cast `f64 as u64`: truncate toward zero, saturating at the bounds. -/
def f64AsU64 (q : Rat) : Nat := min q.floor.toNat (2 ^ 64 - 1)

/-- Rust cast `f64 as i64`: truncation toward zero (range assumed). -/
def f64AsI64 (q : Rat) : Int := if 0 ≤ q then q.floor else q.ceil

/-- `Instant::duration_since(prev).as_secs_f64()`: non-negative, saturating
at zero for a non-monotonic pair. -/
def durationSince (now prev : Rat) : Rat := if prev ≤ now then now - prev else 0

/-- The shared percentage pattern `if total > 0 { used/total*100 } else { 0.0 }`
(memory_monitor.rs lines 64-68 and 94-98, disk_monitor.rs lines 80-84 and
111-115). -/
def usagePercent (used total : Nat) : Rat :=
  if 0 < total then ((used : Rat) / (total : Rat)) * 100 else 0

/-! ### Network monitor (network_monitor.rs) -/

/-- The four interface-wide totals returned by `NetworkMonitor::get_totals`. -/
structure NetworkTotals where
  rx_bytes : Nat
  tx_bytes : Nat
  rx_packets : Nat
  tx_packets : Nat
deriving DecidableEq, Repr

/-- Mutable state of `NetworkMonitor` (the per-counter-family rate window). -/
structure NetworkState where
  prev_rx_bytes : Nat
  prev_tx_bytes : Nat
  prev_rx_packets : Nat
  prev_tx_packets : Nat
  prev_time : Option Rat
deriving DecidableEq, Repr

/-- `NetworkMonitor::new`: primes the counters from the initial totals and
leaves `prev_time` unset. -/
def NetworkState.new (init : NetworkTotals) : NetworkState :=
  { prev_rx_bytes := init.rx_bytes
    prev_tx_bytes := init.tx_bytes
    prev_rx_packets := init.rx_packets
    prev_tx_packets := init.tx_packets
    prev_time := none }

/-- `NetworkMonitor::get_metrics`.  Inputs: current time, current totals
(from the refreshed interface list), the optional active-connection count and
the interface count.  Returns the updated state and the snapshot. -/
def networkGetMetrics (s : NetworkState) (now : Rat) (cur : NetworkTotals)
    (connCount : Option Int) (interfaceCount : Nat) : NetworkState × Metrics :=
  let base : Metrics :=
    [("network.rx_bytes_total", .int (u64AsI64 cur.rx_bytes)),
     ("network.tx_bytes_total", .int (u64AsI64 cur.tx_bytes)),
     ("network.rx_packets_total", .int (u64AsI64 cur.rx_packets)),
     ("network.tx_packets_total", .int (u64AsI64 cur.tx_packets))]
  let rates : Metrics :=
    match s.prev_time with
    | none => []
    | some pt =>
      let elapsed := durationSince now pt
      if 0 < elapsed then
        let rxB := f64AsU64 (((cur.rx_bytes - s.prev_rx_bytes : Nat) : Rat) / elapsed)
        let txB := f64AsU64 (((cur.tx_bytes - s.prev_tx_bytes : Nat) : Rat) / elapsed)
        let rxP := f64AsU64 (((cur.rx_packets - s.prev_rx_packets : Nat) : Rat) / elapsed)
        let txP := f64AsU64 (((cur.tx_packets - s.prev_tx_packets : Nat) : Rat) / elapsed)
        [("network.rx_bytes_per_sec", .int (u64AsI64 rxB)),
         ("network.tx_bytes_per_sec", .int (u64AsI64 txB)),
         ("network.rx_packets_per_sec", .int (u64AsI64 rxP)),
         ("network.tx_packets_per_sec", .int (u64AsI64 txP)),
         ("network.bandwidth_bytes_per_sec", .int (u64AsI64 ((rxB + txB) % 2 ^ 64)))]
      else []
  let tail : Metrics :=
    (match connCount with
     | some c => [("network.connections_active", .int c)]
     | none => []) ++
    [("network.interface_count", .int (interfaceCount : Int))]
  let s' : NetworkState :=
    { prev_rx_bytes := cur.rx_bytes
      prev_tx_bytes := cur.tx_bytes
      prev_rx_packets := cur.rx_packets
      prev_tx_packets := cur.tx_packets
      prev_time := some now }
  (s', base ++ rates ++ tail)

/-! ### Disk monitor (disk_monitor.rs) -/

/-- One `procfs::DiskStat` row (the fields the monitor reads). -/
structure DiskStat where
  name : String
  reads : Nat
  writes : Nat
  sectors_read : Nat
  sectors_written : Nat
deriving DecidableEq, Repr

/-- One mounted filesystem as seen through sysinfo `Disks`. -/
structure DiskInfo where
  mount_point : String
  total_space : Nat
  available_space : Nat
deriving DecidableEq, Repr

/-- Mutable state of `DiskMonitor` (Linux I/O rate window). -/
structure DiskState where
  prev_disk_stats : Option (List DiskStat)
  prev_time : Option Rat
deriving DecidableEq, Repr

/-- `DiskMonitor::new`: no previous stats, no previous time. -/
def DiskState.new : DiskState := ⟨none, none⟩

/-- Partition test (disk_monitor.rs line 161):
`curr.name.chars().last().map_or(false, |c| c.is_numeric())`.
Device names are ASCII, where `char::is_numeric` agrees with `Char.isDigit`. -/
def isPartitionName (name : String) : Bool :=
  match name.toList.getLast? with
  | some c => c.isDigit
  | none => false

/-- Byte/op deltas aggregated over the whole-device rows. -/
structure IoTotals where
  read_bytes : Nat
  write_bytes : Nat
  read_ops : Nat
  write_ops : Nat
deriving DecidableEq, Repr

/-- Delta contribution of one current row against the matching previous row
(disk_monitor.rs lines 165-180): saturating subtraction, sectors times 512. -/
def diskDeviceDelta (prev : List DiskStat) (curr : DiskStat) : IoTotals :=
  match prev.find? (fun p => p.name == curr.name) with
  | some p =>
    { read_bytes := (curr.sectors_read - p.sectors_read) * 512
      write_bytes := (curr.sectors_written - p.sectors_written) * 512
      read_ops := curr.reads - p.reads
      write_ops := curr.writes - p.writes }
  | none => ⟨0, 0, 0, 0⟩

/-- One step of the aggregation loop of `get_disk_io_metrics`: partition rows
(trailing numeric character) are skipped, others contribute their deltas. -/
def diskAggStep (prev : List DiskStat) (acc : IoTotals) (c : DiskStat) : IoTotals :=
  if isPartitionName c.name then acc
  else
    let d := diskDeviceDelta prev c
    ⟨acc.read_bytes + d.read_bytes, acc.write_bytes + d.write_bytes,
     acc.read_ops + d.read_ops, acc.write_ops + d.write_ops⟩

/-- The aggregation loop of `get_disk_io_metrics` over all current rows. -/
def diskAggregate (cur prev : List DiskStat) : IoTotals :=
  cur.foldl (diskAggStep prev) ⟨0, 0, 0, 0⟩

/-- `DiskMonitor::get_disk_io_metrics`.  `readResult` is the outcome of
`procfs::diskstats()` (`none` = read failure, early return).  Returns the
updated state and `some` rate metrics exactly as the source does. -/
def getDiskIoMetrics (s : DiskState) (readResult : Option (List DiskStat))
    (now : Rat) : DiskState × Option Metrics :=
  match readResult with
  | none => (s, none)
  | some cur =>
    match s.prev_disk_stats, s.prev_time with
    | some prev, some pt =>
      let elapsed := durationSince now pt
      if 0 < elapsed then
        let t := diskAggregate cur prev
        let readBps := f64AsU64 ((t.read_bytes : Rat) / elapsed)
        let writeBps := f64AsU64 ((t.write_bytes : Rat) / elapsed)
        let readOps := f64AsU64 ((t.read_ops : Rat) / elapsed)
        let writeOps := f64AsU64 ((t.write_ops : Rat) / elapsed)
        (⟨some cur, some now⟩,
         some
           [("disk.io_read_bytes_per_sec", .int (u64AsI64 readBps)),
            ("disk.io_write_bytes_per_sec", .int (u64AsI64 writeBps)),
            ("disk.io_read_ops_per_sec", .int (u64AsI64 readOps)),
            ("disk.io_write_ops_per_sec", .int (u64AsI64 writeOps)),
            ("disk.io_total_ops_per_sec", .int (u64AsI64 ((readOps + writeOps) % 2 ^ 64)))])
      else (⟨some cur, some now⟩, none)
    | _, _ => (⟨some cur, some now⟩, none)

/-- One iteration of the mount loop in `DiskMonitor::get_metrics` (lines
58-99): root-mount metrics inserted when the mount point is `/`, totals
accumulated unless the mount point is under a pseudo-filesystem namespace. -/
def diskLoopStep (acc : Metrics × Nat × Nat) (d : DiskInfo) : Metrics × Nat × Nat :=
  let used := d.total_space - d.available_space
  let m1 : Metrics :=
    if d.mount_point == "/" then
      ("disk.root.usage_percent", .float (usagePercent used d.total_space)) ::
      ("disk.root.available_bytes", .int (u64AsI64 d.available_space)) ::
      ("disk.root.used_bytes", .int (u64AsI64 used)) ::
      ("disk.root.total_bytes", .int (u64AsI64 d.total_space)) :: acc.1
    else acc.1
  if !strStarts d.mount_point "/dev" && !strStarts d.mount_point "/sys" &&
     !strStarts d.mount_point "/proc" && !strStarts d.mount_point "/run" then
    (m1, acc.2.1 + d.total_space, acc.2.2 + used)
  else
    (m1, acc.2.1, acc.2.2)

/-- `DiskMonitor::get_metrics`: mount loop, overall totals and usage
percentage, then the optional I/O rate block. -/
def diskGetMetrics (s : DiskState) (disks : List DiskInfo)
    (readResult : Option (List DiskStat)) (now : Rat) : DiskState × Metrics :=
  let r := disks.foldl diskLoopStep ([], 0, 0)
  let base : Metrics :=
    ("disk.usage_percent", .float (usagePercent r.2.2 r.2.1)) ::
    ("disk.used_bytes", .int (u64AsI64 r.2.2)) ::
    ("disk.total_bytes", .int (u64AsI64 r.2.1)) :: r.1
  let io := getDiskIoMetrics s readResult now
  (io.1, (io.2.getD []) ++ base)

/-! ### Memory monitor (memory_monitor.rs) -/

/-- The sysinfo readings consumed by `MemoryMonitor::get_metrics`. -/
structure MemoryInputs where
  total_memory : Nat
  used_memory : Nat
  available_memory : Nat
  free_memory : Nat
  total_swap : Nat
  used_swap : Nat
  free_swap : Nat
deriving DecidableEq, Repr

/-- `MemoryMonitor::get_metrics` (stateless apart from the refresh). -/
def memoryGetMetrics (inp : MemoryInputs) : Metrics :=
  let usage := usagePercent inp.used_memory inp.total_memory
  [("memory.total_bytes", .int (u64AsI64 inp.total_memory)),
   ("memory.used_bytes", .int (u64AsI64 inp.used_memory)),
   ("memory.available_bytes", .int (u64AsI64 inp.available_memory)),
   ("memory.free_bytes", .int (u64AsI64 inp.free_memory)),
   ("memory.usage_percent", .float usage),
   ("memory.swap_total_bytes", .int (u64AsI64 inp.total_swap)),
   ("memory.swap_used_bytes", .int (u64AsI64 inp.used_swap)),
   ("memory.swap_free_bytes", .int (u64AsI64 inp.free_swap)),
   ("memory.swap_usage_percent", .float (usagePercent inp.used_swap inp.total_swap)),
   ("memory.pressure_high", .int (if 90 < usage then 1 else 0))]

/-! ### CPU monitor (cpu_monitor.rs) -/

/-- `CpuMonitor::calculate_overall_cpu_usage`: arithmetic mean of the
per-core usages, `0.0` for an empty core list. -/
def calculateOverallCpuUsage (usages : List Rat) : Rat :=
  if usages.isEmpty then 0 else usages.sum / (usages.length : Rat)

/-! ### Service facade (main.rs) -/

/-- `SystemMonitorServiceImpl::sample` (main.rs lines 180-205): pushes the
internal `_timestamp` entry, then extends with the accelerator metrics.  The
domain monitors are not consulted on this surface. -/
def sampleMetrics (timestamp : Rat) (gpuMetrics : Metrics) : Metrics :=
  ("_timestamp", .float timestamp) :: gpuMetrics

/-- The item list built by `SystemMonitorServiceImpl::get_stats` (main.rs
lines 274-283).  Keys beginning with `_` are filtered out; the per-item JSON
encoding is key-preserving (a failed encoding only drops the item), so the
item keys are modelled directly. -/
def getStatsItems (timestamp : Rat) (gpuMetrics : Metrics) : Metrics :=
  (sampleMetrics timestamp gpuMetrics).filter (fun p => !strStarts p.1 "_")

/-- Modelled from the spec: the Accelerator Aggregator (`GpuMonitors`,
`monitors` module, not under src/) emits metrics keyed by device in the
accelerator namespace — `accelerator.<index>.<field>` in the spec's words,
realised as `gpu.<index>.<field>` keys by the HTTP DTO conversion in
rest_api.rs.  Either way the key namespace is disjoint from the
cpu/memory/disk/network namespaces. -/
def isAcceleratorKey (k : String) : Bool :=
  strStarts k "accelerator." || strStarts k "gpu."

/-- State relevant to `SystemMonitorServiceImpl::tear_down` (main.rs lines
212-228): whether the one-shot shutdown sender is still in its slot, whether
the receiver half is still alive, and whether the GPU monitors were shut
down. -/
structure ServiceState where
  sender_armed : Bool
  receiver_alive : Bool
  gpu_shutdown : Bool
deriving DecidableEq, Repr

/-- `tear_down`: shuts down the GPU monitors, then `take()`s the sender and
fires it with `send(()).unwrap()` — the `unwrap` panics (modelled as
`Except.error`) only if the sender was still armed but the receiver was
gone.  An empty slot skips the send and still answers `Ok`. -/
def tearDown (s : ServiceState) : Except String (ServiceState × Unit) :=
  let s1 : ServiceState := { s with gpu_shutdown := true }
  if s1.sender_armed then
    if s1.receiver_alive then
      Except.ok ({ s1 with sender_armed := false }, ())
    else
      Except.error "send failed: receiver dropped"
  else
    Except.ok (s1, ())

/-! ### Monitor construction in `main` (main.rs lines 416-449,
rest_api.rs lines 149-180) -/

/-- Monitor kinds instantiated by the process. -/
inductive MonitorKind where
  | gpu | cpu | memory | disk | network
deriving DecidableEq, Repr

/-- `SystemMonitorServiceImpl::new` (main.rs line 149) constructs one
`GpuMonitors` for the RPC surface. -/
def serviceImplMonitors : List MonitorKind := [.gpu]

/-- `ApiState::new` (rest_api.rs lines 150-179) constructs one monitor of
each domain kind for the HTTP surface. -/
def apiStateMonitors : List MonitorKind := [.cpu, .memory, .disk, .network]

/-- The monitor instances created by `main` in order: the RPC service's
`GpuMonitors` (main.rs line 416 via line 149), then — when the REST API is
enabled — a second `GpuMonitors` (line 424) and the `ApiState` domain
monitors (line 431). -/
def mainCreatedMonitors (enableRestApi : Bool) : List MonitorKind :=
  serviceImplMonitors ++
    (if enableRestApi then [MonitorKind.gpu] ++ apiStateMonitors else [])

/-! ### HTTP DTO conversion (rest_api.rs) -/

/-- `get_float` (rest_api.rs lines 435-441). -/
def get_float (m : Metrics) (k : String) : Option Rat :=
  match m.lookup k with
  | some (.float v) => some v
  | some (.int v) => some (v : Rat)
  | _ => none

/-- `get_int` (rest_api.rs lines 444-450). -/
def get_int (m : Metrics) (k : String) : Option Int :=
  match m.lookup k with
  | some (.int v) => some v
  | some (.float v) => some (f64AsI64 v)
  | _ => none

/-- `get_string` (rest_api.rs lines 453-458). -/
def get_string (m : Metrics) (k : String) : Option String :=
  match m.lookup k with
  | some (.str v) => some v
  | _ => none

/-- DTO: one entry of `CpuMetrics.cores`. -/
structure CpuCoreDto where
  id : Nat
  usage : Rat
  frequency : Rat
  temperature : Option Rat
deriving DecidableEq, Repr

/-- DTO: `CpuMetrics`. -/
structure CpuDto where
  overall : Rat
  cores : List CpuCoreDto
  loadAverage : List Rat
  processes : Int
  threads : Int
deriving DecidableEq, Repr

/-- DTO: `SwapMetrics`. -/
structure SwapDto where
  used : Nat
  total : Nat
  percentage : Rat
deriving DecidableEq, Repr

/-- DTO: `MemoryMetrics`. -/
structure MemoryDto where
  usage : Rat
  used : Nat
  total : Nat
  swap : SwapDto
deriving DecidableEq, Repr

/-- DTO: `DiskMetrics`. -/
structure DiskDto where
  usage : Rat
  used : Nat
  total : Nat
  ioRead : Nat
  ioWrite : Nat
  iops : Int
deriving DecidableEq, Repr

/-- DTO: `NetworkMetrics`. -/
structure NetworkDto where
  bytesIn : Nat
  bytesOut : Nat
  packetsIn : Nat
  packetsOut : Nat
  connections : Int
deriving DecidableEq, Repr

/-- DTO: `AcceleratorMemoryMetrics`. -/
structure AccelMemoryDto where
  used : Nat
  total : Nat
  percentage : Rat
deriving DecidableEq, Repr

/-- DTO: one entry of `accelerators`. -/
structure AccelDto where
  id : Nat
  device_type : String
  name : String
  utilization : Rat
  memory : AccelMemoryDto
  temperature : Rat
  power : Option Rat
  fanSpeed : Option Rat
deriving DecidableEq, Repr

/-- DTO: `SystemMetricsResponse` (wall-clock timestamp omitted). -/
structure SystemMetricsResponseDto where
  node_id : String
  cpu : CpuDto
  memory : MemoryDto
  disk : DiskDto
  network : NetworkDto
  accelerators : List AccelDto
deriving DecidableEq, Repr

/-- The core count driving the per-core loop:
`get_int(&cpu_metrics, "cpu.count").unwrap_or(1) as usize`. -/
def cpuCountOf (cpu_metrics : Metrics) : Nat :=
  i64AsU64 ((get_int cpu_metrics "cpu.count").getD 1)

/-- The GPU index scan of `convert_to_response` (rest_api.rs lines 386-395):
keys `gpu.<id>.<field>` yield the set of ids.  The `HashSet` iteration order
is arbitrary; first-occurrence order is one admissible order. -/
def extractGpuIds (gpu_metrics : Metrics) : List Nat :=
  (gpu_metrics.filterMap (fun p =>
    if strStarts p.1 "gpu." then ((p.1.splitOn ".").get? 1).bind String.toNat?
    else none)).dedup

/-- One accelerator entry (rest_api.rs lines 397-415). -/
def accelEntry (gpu_metrics : Metrics) (id : Nat) : AccelDto :=
  { id := id
    device_type := "gpu"
    name := (get_string gpu_metrics s!"gpu.{id}.name").getD ("GPU " ++ toString id)
    utilization := (get_float gpu_metrics s!"gpu.{id}.gpu_utilization").getD 0
    memory :=
      { used := i64AsU64 ((get_int gpu_metrics s!"gpu.{id}.memory_used").getD 0)
        total := i64AsU64 ((get_int gpu_metrics s!"gpu.{id}.memory_total").getD 0)
        percentage := (get_float gpu_metrics s!"gpu.{id}.memory_utilization").getD 0 }
    temperature := (get_float gpu_metrics s!"gpu.{id}.temperature").getD 0
    power := get_float gpu_metrics s!"gpu.{id}.power_usage"
    fanSpeed := get_float gpu_metrics s!"gpu.{id}.fan_speed" }

/-- `convert_to_response` (rest_api.rs lines 323-432). -/
def convert_to_response (node_id : String)
    (cpu_metrics memory_metrics disk_metrics network_metrics gpu_metrics : Metrics) :
    SystemMetricsResponseDto :=
  let cpu_count := cpuCountOf cpu_metrics
  let cores := (List.range cpu_count).map (fun i =>
    { id := i
      usage := (get_float cpu_metrics ("cpu.core" ++ toString i ++ ".usage_percent")).getD 0
      frequency := (get_float cpu_metrics ("cpu.core" ++ toString i ++ ".frequency_mhz")).getD 0
      temperature := get_float cpu_metrics "cpu.temperature_celsius" : CpuCoreDto })
  { node_id := node_id
    cpu :=
      { overall := (get_float cpu_metrics "cpu.usage_percent").getD 0
        cores := cores
        loadAverage :=
          [(get_float cpu_metrics "cpu.load_avg_1min").getD 0,
           (get_float cpu_metrics "cpu.load_avg_5min").getD 0,
           (get_float cpu_metrics "cpu.load_avg_15min").getD 0]
        processes := (get_int cpu_metrics "cpu.process_count").getD 0
        threads := (get_int cpu_metrics "cpu.thread_count").getD 0 }
    memory :=
      { usage := (get_float memory_metrics "memory.usage_percent").getD 0
        used := i64AsU64 ((get_int memory_metrics "memory.used_bytes").getD 0)
        total := i64AsU64 ((get_int memory_metrics "memory.total_bytes").getD 0)
        swap :=
          { used := i64AsU64 ((get_int memory_metrics "memory.swap_used_bytes").getD 0)
            total := i64AsU64 ((get_int memory_metrics "memory.swap_total_bytes").getD 0)
            percentage := (get_float memory_metrics "memory.swap_usage_percent").getD 0 } }
    disk :=
      { usage := (get_float disk_metrics "disk.usage_percent").getD 0
        used := i64AsU64 ((get_int disk_metrics "disk.used_bytes").getD 0)
        total := i64AsU64 ((get_int disk_metrics "disk.total_bytes").getD 0)
        ioRead := i64AsU64 ((get_int disk_metrics "disk.io_read_bytes_per_sec").getD 0)
        ioWrite := i64AsU64 ((get_int disk_metrics "disk.io_write_bytes_per_sec").getD 0)
        iops := (get_int disk_metrics "disk.io_total_ops_per_sec").getD 0 }
    network :=
      { bytesIn := i64AsU64 ((get_int network_metrics "network.rx_bytes_per_sec").getD 0)
        bytesOut := i64AsU64 ((get_int network_metrics "network.tx_bytes_per_sec").getD 0)
        packetsIn := i64AsU64 ((get_int network_metrics "network.rx_packets_per_sec").getD 0)
        packetsOut := i64AsU64 ((get_int network_metrics "network.tx_packets_per_sec").getD 0)
        connections := (get_int network_metrics "network.connections_active").getD 0 }
    accelerators := (extractGpuIds gpu_metrics).map (accelEntry gpu_metrics) }

/-! ### Helper lemmas -/

/-- `List.lookup` distributes over append. -/
theorem lookup_append (l₁ l₂ : Metrics) (k : String) :
    List.lookup k (l₁ ++ l₂) =
      ((List.lookup k l₁).rec (List.lookup k l₂) (fun v => some v) : Option MetricValue) := by
  induction l₁ with
  | nil => simp [List.lookup]
  | cons p t ih =>
    obtain ⟨a, b⟩ := p
    by_cases h : (k == a) = true
    · simp [List.lookup, h]
    · simp only [Bool.not_eq_true] at h
      simp [List.lookup, h, ih]

theorem usagePercent_nonneg (u t : Nat) : 0 ≤ usagePercent u t := by
  unfold usagePercent
  split
  · positivity
  · exact le_refl 0

theorem usagePercent_le_100 (u t : Nat) (h : u ≤ t) : usagePercent u t ≤ 100 := by
  unfold usagePercent
  split
  · rename_i ht
    have ht' : (0 : Rat) < (t : Rat) := by exact_mod_cast ht
    have h1 : ((u : Rat) / (t : Rat)) ≤ 1 := by
      rw [div_le_one ht']
      exact_mod_cast h
    calc ((u : Rat) / (t : Rat)) * 100 ≤ 1 * 100 := by
          exact mul_le_mul_of_nonneg_right h1 (by norm_num)
      _ = 100 := by norm_num
  · norm_num

theorem usagePercent_zero_total (u : Nat) : usagePercent u 0 = 0 := by
  simp [usagePercent]

/-- Keys other than the four root keys pass through the mount loop. -/
theorem diskLoop_lookup_other (k : String)
    (h1 : k ≠ "disk.root.usage_percent") (h2 : k ≠ "disk.root.available_bytes")
    (h3 : k ≠ "disk.root.used_bytes") (h4 : k ≠ "disk.root.total_bytes") :
    ∀ (ds : List DiskInfo) (acc : Metrics × Nat × Nat),
      List.lookup k (ds.foldl diskLoopStep acc).1 = List.lookup k acc.1 := by
  intro ds
  induction ds with
  | nil => intro acc; rfl
  | cons d t ih =>
    intro acc
    rw [List.foldl_cons, ih]
    unfold diskLoopStep
    have e1 : (k == "disk.root.usage_percent") = false := by simpa using h1
    have e2 : (k == "disk.root.available_bytes") = false := by simpa using h2
    have e3 : (k == "disk.root.used_bytes") = false := by simpa using h3
    have e4 : (k == "disk.root.total_bytes") = false := by simpa using h4
    split <;> split <;> simp [List.lookup, e1, e2, e3, e4]

/-- Every key emitted by the mount loop is a root key or came from the
accumulator. -/
theorem diskLoop_mem (p : String × MetricValue) :
    ∀ (ds : List DiskInfo) (acc : Metrics × Nat × Nat),
      p ∈ (ds.foldl diskLoopStep acc).1 →
      p ∈ acc.1 ∨ p.1 ∈ (["disk.root.usage_percent", "disk.root.available_bytes",
        "disk.root.used_bytes", "disk.root.total_bytes"] : List String) := by
  intro ds
  induction ds with
  | nil => intro acc h; exact Or.inl h
  | cons d t ih =>
    intro acc h
    rcases ih (diskLoopStep acc d) h with hmem | hk
    · unfold diskLoopStep at hmem
      split at hmem
      · split at hmem <;>
          (simp only [List.mem_cons] at hmem
           rcases hmem with rfl | rfl | rfl | rfl | hmem
           · exact Or.inr (by simp)
           · exact Or.inr (by simp)
           · exact Or.inr (by simp)
           · exact Or.inr (by simp)
           · exact Or.inl hmem)
      · split at hmem <;> exact Or.inl hmem
    · exact Or.inr hk

/-- The accumulated used total never exceeds the accumulated space total. -/
theorem diskLoop_used_le :
    ∀ (ds : List DiskInfo) (acc : Metrics × Nat × Nat), acc.2.2 ≤ acc.2.1 →
      (ds.foldl diskLoopStep acc).2.2 ≤ (ds.foldl diskLoopStep acc).2.1 := by
  intro ds
  induction ds with
  | nil => intro acc h; exact h
  | cons d t ih =>
    intro acc h
    rw [List.foldl_cons]
    apply ih
    unfold diskLoopStep
    split <;> split <;>
      simp only [] <;>
      first
        | exact h
        | exact Nat.add_le_add h (Nat.sub_le _ _)

/-- Any root usage percentage produced by the mount loop lies in [0, 100]. -/
theorem diskLoop_root_bounds :
    ∀ (ds : List DiskInfo) (acc : Metrics × Nat × Nat),
      (∀ v : Rat, List.lookup "disk.root.usage_percent" acc.1 =
        some (.float v) → 0 ≤ v ∧ v ≤ 100) →
      ∀ v : Rat, List.lookup "disk.root.usage_percent" (ds.foldl diskLoopStep acc).1 =
        some (.float v) → 0 ≤ v ∧ v ≤ 100 := by
  intro ds
  induction ds with
  | nil => intro acc hacc; exact hacc
  | cons d t ih =>
    intro acc hacc
    rw [List.foldl_cons]
    apply ih
    intro v hv
    unfold diskLoopStep at hv
    split at hv
    · split at hv
      · simp [List.lookup] at hv
        subst hv
        exact ⟨usagePercent_nonneg _ _,
          usagePercent_le_100 _ _ (Nat.sub_le _ _)⟩
      · simp [List.lookup] at hv
        subst hv
        exact ⟨usagePercent_nonneg _ _,
          usagePercent_le_100 _ _ (Nat.sub_le _ _)⟩
    · split at hv <;> exact hacc v hv

/-- When every root mount reports zero total space, any root usage
percentage produced by the loop is exactly 0. -/
theorem diskLoop_root_zero :
    ∀ (ds : List DiskInfo) (acc : Metrics × Nat × Nat),
      (∀ d ∈ ds, d.mount_point = "/" → d.total_space = 0) →
      (List.lookup "disk.root.usage_percent" acc.1 = none ∨
        List.lookup "disk.root.usage_percent" acc.1 = some (.float 0)) →
      (List.lookup "disk.root.usage_percent" (ds.foldl diskLoopStep acc).1 = none ∨
        List.lookup "disk.root.usage_percent" (ds.foldl diskLoopStep acc).1 =
          some (.float 0)) := by
  intro ds
  induction ds with
  | nil => intro acc _ hacc; exact hacc
  | cons d t ih =>
    intro acc hz hacc
    rw [List.foldl_cons]
    apply ih
    · intro x hx hroot
      exact hz x (List.mem_cons_of_mem _ hx) hroot
    · unfold diskLoopStep
      split
      · rename_i hroot
        have hzero : d.total_space = 0 := by
          apply hz d (List.mem_cons_self _ _)
          simpa using hroot
        right
        split <;>
          simp [List.lookup, hzero, usagePercent_zero_total]
      · split <;> exact hacc

/-- A key distinct from the five I/O keys never occurs in the I/O rate block. -/
theorem ioBlock_lookup_none (s : DiskState) (rr : Option (List DiskStat))
    (now : Rat) (k : String)
    (h1 : k ≠ "disk.io_read_bytes_per_sec") (h2 : k ≠ "disk.io_write_bytes_per_sec")
    (h3 : k ≠ "disk.io_read_ops_per_sec") (h4 : k ≠ "disk.io_write_ops_per_sec")
    (h5 : k ≠ "disk.io_total_ops_per_sec") :
    List.lookup k ((getDiskIoMetrics s rr now).2.getD []) = none := by
  have e1 : (k == "disk.io_read_bytes_per_sec") = false := by simpa using h1
  have e2 : (k == "disk.io_write_bytes_per_sec") = false := by simpa using h2
  have e3 : (k == "disk.io_read_ops_per_sec") = false := by simpa using h3
  have e4 : (k == "disk.io_write_ops_per_sec") = false := by simpa using h4
  have e5 : (k == "disk.io_total_ops_per_sec") = false := by simpa using h5
  obtain ⟨pds, pt⟩ := s
  cases rr with
  | none => rfl
  | some cur =>
    cases pds with
    | none => rfl
    | some prev =>
      cases pt with
      | none => rfl
      | some t =>
        by_cases hd : 0 < durationSince now t
        · simp [getDiskIoMetrics, hd, List.lookup, e1, e2, e3, e4, e5]
        · simp [getDiskIoMetrics, hd]

/-- A list led by `a` starts with `a`. -/
theorem leadsWith_cons {a : Char} {as l : List Char}
    (h : leadsWith (a :: as) l = true) : ∃ t, l = a :: t ∧ leadsWith as t = true := by
  cases l with
  | nil => simp [leadsWith] at h
  | cons b bs =>
    rw [leadsWith, Bool.and_eq_true] at h
    obtain ⟨hab, hrest⟩ := h
    exact ⟨bs, by rw [(beq_iff_eq).mp hab], hrest⟩

/-- Two required key namespaces with different first characters exclude each
other. -/
theorem strStarts_false_of_ne_head {k p q : String} {a b : Char} {as bs : List Char}
    (hp : p.toList = a :: as) (hq : q.toList = b :: bs) (hab : a ≠ b)
    (h : strStarts k p = true) : strStarts k q = false := by
  unfold strStarts at h ⊢
  rw [hp] at h
  obtain ⟨t, ht, _⟩ := leadsWith_cons h
  cases hcon : leadsWith q.toList k.toList with
  | false => rfl
  | true =>
    rw [hq] at hcon
    obtain ⟨t', ht', _⟩ := leadsWith_cons hcon
    rw [ht] at ht'
    injection ht' with hhead _
    exact absurd hhead hab

/-- If every matched whole-device row has a non-increasing read-sector
counter, the aggregated read-byte delta is zero. -/
theorem diskAgg_read_zero (cur prev : List DiskStat)
    (h : ∀ c ∈ cur, ∀ p ∈ prev, p.name = c.name →
      c.sectors_read ≤ p.sectors_read) :
    (diskAggregate cur prev).read_bytes = 0 := by
  unfold diskAggregate
  suffices hgen : ∀ (l : List DiskStat), (∀ c ∈ l, ∀ p ∈ prev, p.name = c.name →
      c.sectors_read ≤ p.sectors_read) →
      ∀ acc : IoTotals, (l.foldl (diskAggStep prev) acc).read_bytes = acc.read_bytes by
    exact hgen cur h ⟨0, 0, 0, 0⟩
  intro l
  induction l with
  | nil => intro _ acc; rfl
  | cons c t ih =>
    intro hl acc
    rw [List.foldl_cons]
    rw [ih (fun x hx => hl x (List.mem_cons_of_mem _ hx))]
    unfold diskAggStep
    split
    · rfl
    · unfold diskDeviceDelta
      cases hf : prev.find? (fun p => p.name == c.name) with
      | none => simp
      | some p =>
        have hpmem : p ∈ prev := List.mem_of_find?_eq_some hf
        have hpname : p.name = c.name := by
          have := List.find?_some hf
          exact (beq_iff_eq).mp this
        have hle := hl c (List.mem_cons_self _ _) p hpmem hpname
        simp [Nat.sub_eq_zero_of_le hle]

/-! ### Claims -/

/-- C10 (confirmed): `calculate_overall_cpu_usage` is total on every
core-list length — the empty core list returns exactly 0.0, and a non-empty
list returns the sum of per-core usages divided by the core count, whose
denominator is then nonzero, so the division's zero-denominator branch is
unreachable. -/
theorem claim10_overall_cpu_total :
    calculateOverallCpuUsage [] = 0 ∧
    ∀ us : List Rat, us ≠ [] →
      calculateOverallCpuUsage us = us.sum / (us.length : Rat) ∧
      (us.length : Rat) ≠ 0 := by
  refine ⟨rfl, fun us h => ⟨?_, ?_⟩⟩
  · cases us with
    | nil => exact absurd rfl h
    | cons a t => rfl
  · cases us with
    | nil => exact absurd rfl h
    | cons a t =>
      simp only [List.length_cons]
      exact_mod_cast Nat.succ_ne_zero t.length

/-- Witness for C10 at the concrete core list `[50, 100]`. -/
theorem claim10_witness :
    calculateOverallCpuUsage [50, 100] = 75 ∧
    (([50, 100] : List Rat).length : Rat) ≠ 0 := by
  have h := claim10_overall_cpu_total.2 [50, 100] (by simp)
  refine ⟨?_, h.2⟩
  rw [h.1]
  norm_num

/-- C7 (confirmed): after any successful `tear_down` the sender slot is
empty, and a second `tear_down` on the resulting state performs no send,
does not panic, returns the same successful empty response and leaves the
state unchanged — double tear-down is an idempotent no-op. -/
theorem claim7_teardown_idempotent (s s' : ServiceState)
    (h : tearDown s = Except.ok (s', ())) :
    tearDown s' = Except.ok (s', ()) ∧ s'.sender_armed = false := by
  obtain ⟨sa, ra, gs⟩ := s
  cases sa with
  | false =>
    have hs : (⟨false, ra, true⟩ : ServiceState) = s' := by
      have h2 : (Except.ok ((⟨false, ra, true⟩ : ServiceState), ()) :
          Except String (ServiceState × Unit)) = Except.ok (s', ()) := h
      exact congrArg Prod.fst (Except.ok.inj h2)
    rw [← hs]
    exact ⟨rfl, rfl⟩
  | true =>
    cases ra with
    | false => simp [tearDown] at h
    | true =>
      have hs : (⟨false, true, true⟩ : ServiceState) = s' := by
        have h2 : (Except.ok ((⟨false, true, true⟩ : ServiceState), ()) :
            Except String (ServiceState × Unit)) = Except.ok (s', ()) := h
        exact congrArg Prod.fst (Except.ok.inj h2)
      rw [← hs]
      exact ⟨rfl, rfl⟩

/-- Witness for C7: tearing down an armed service with a live receiver,
then tearing down again. -/
theorem claim7_witness :
    tearDown ⟨false, true, true⟩ = Except.ok (⟨false, true, true⟩, ()) ∧
    (⟨false, true, true⟩ : ServiceState).sender_armed = false :=
  claim7_teardown_idempotent ⟨true, true, false⟩ ⟨false, true, true⟩ rfl

/-- C9 counterexample: with the REST API enabled (the default), `main`
constructs two `GpuMonitors` instances — one inside
`SystemMonitorServiceImpl::new` and a second for the REST `ApiState` — so it
is false that exactly one instance of every monitor exists in the process
and that the two transport surfaces read the same underlying instances. -/
theorem claim9_counterexample :
    (mainCreatedMonitors true).count MonitorKind.gpu = 2 := by decide

/-- C9 (corrected): each Domain Monitor (CPU, memory, disk, network) is
instantiated exactly once, and only for the HTTP surface's `ApiState`; the
`GpuMonitors` aggregator however is instantiated twice when the REST API is
enabled — once per transport surface — so the RPC and HTTP surfaces do not
share the accelerator aggregator.  With the REST API disabled only the RPC
surface's `GpuMonitors` exists. -/
theorem claim9_amended :
    (mainCreatedMonitors true).count MonitorKind.cpu = 1 ∧
    (mainCreatedMonitors true).count MonitorKind.memory = 1 ∧
    (mainCreatedMonitors true).count MonitorKind.disk = 1 ∧
    (mainCreatedMonitors true).count MonitorKind.network = 1 ∧
    (mainCreatedMonitors true).count MonitorKind.gpu = 2 ∧
    serviceImplMonitors.count MonitorKind.gpu = 1 ∧
    apiStateMonitors.count MonitorKind.gpu = 0 ∧
    mainCreatedMonitors false = [MonitorKind.gpu] := by decide

/-- C5 (confirmed): the disk I/O aggregation is unchanged by deleting all
partition rows (names with a trailing numeric character) from the current
row list — partitions contribute nothing — and on the concrete shape of a
whole device `sda` plus its partition `sda1` carrying identical deltas the
aggregate equals exactly the `sda` contribution. -/
theorem claim5_partition_exclusion :
    (∀ cur prev : List DiskStat,
      diskAggregate cur prev =
        diskAggregate (cur.filter (fun c => !isPartitionName c.name)) prev) ∧
    (∀ pr pw psr psw dr dw dsr dsw : Nat,
      diskAggregate
        [⟨"sda", pr + dr, pw + dw, psr + dsr, psw + dsw⟩,
         ⟨"sda1", pr + dr, pw + dw, psr + dsr, psw + dsw⟩]
        [⟨"sda", pr, pw, psr, psw⟩, ⟨"sda1", pr, pw, psr, psw⟩] =
        ⟨dsr * 512, dsw * 512, dr, dw⟩) := by
  constructor
  · intro cur prev
    unfold diskAggregate
    suffices hgen : ∀ (l : List DiskStat) (acc : IoTotals),
        l.foldl (diskAggStep prev) acc =
          (l.filter (fun c => !isPartitionName c.name)).foldl (diskAggStep prev) acc by
      exact hgen cur ⟨0, 0, 0, 0⟩
    intro l
    induction l with
    | nil => intro acc; rfl
    | cons c t ih =>
      intro acc
      by_cases hc : isPartitionName c.name
      · have hcf : (!isPartitionName c.name) = false := by simp [hc]
        have hstep : diskAggStep prev acc c = acc := by
          rw [diskAggStep, if_pos hc]
        rw [List.foldl_cons, List.filter_cons, hcf, if_neg Bool.false_ne_true, hstep]
        exact ih acc
      · have hct : (!isPartitionName c.name) = true := by simp [hc]
        rw [List.foldl_cons, List.filter_cons, hct, if_pos rfl, List.foldl_cons]
        exact ih (diskAggStep prev acc c)
  · intro pr pw psr psw dr dw dsr dsw
    have h1 : isPartitionName "sda" = false := by decide
    have h2 : isPartitionName "sda1" = true := by decide
    simp only [diskAggregate, List.foldl_cons, List.foldl_nil, diskAggStep, h1, h2,
      Bool.false_eq_true, if_false, if_true, diskDeviceDelta, List.find?]
    simp [Nat.add_sub_cancel_left]

/-- C1 counterexample: a `NetworkMonitor` with an existing window
(`prev_time = some 0`, `prev_rx_bytes = 0`) sampled again at the same
instant (elapsed = 0 ≤ 0) emits no rate metric, but the stored window is
NOT left unchanged: the previous counter value becomes 100. -/
theorem claim1_counterexample :
    durationSince 0 0 ≤ 0 ∧
    (networkGetMetrics ⟨0, 0, 0, 0, some 0⟩ 0 ⟨100, 0, 0, 0⟩ none 0).1.prev_rx_bytes = 100 ∧
    (⟨0, 0, 0, 0, some 0⟩ : NetworkState).prev_rx_bytes = 0 ∧
    (∀ p ∈ (networkGetMetrics ⟨0, 0, 0, 0, some 0⟩ 0 ⟨100, 0, 0, 0⟩ none 0).2,
      strEnds p.1 "_per_sec" = false) := by
  have hne : ¬ (0 < durationSince (0 : Rat) 0) := by norm_num [durationSince]
  refine ⟨by norm_num [durationSince], rfl, rfl, ?_⟩
  intro p hp
  simp [networkGetMetrics, hne] at hp
  rcases hp with rfl | rfl | rfl | rfl | rfl <;> rfl

/-- C1 (corrected): with an existing rate window and elapsed ≤ 0, both
monitors return no rate metrics, but — contrary to the claim — both update
the stored window to the current counter values and current timestamp: the
network monitor updates unconditionally after the rate block, and the disk
monitor falls through to the store-and-return-None branch. -/
theorem claim1_amended :
    (∀ (s : NetworkState) (pt now : Rat) (cur : NetworkTotals)
        (conn : Option Int) (ic : Nat),
      s.prev_time = some pt → durationSince now pt ≤ 0 →
      (∀ p ∈ (networkGetMetrics s now cur conn ic).2,
        strEnds p.1 "_per_sec" = false) ∧
      (networkGetMetrics s now cur conn ic).1 =
        ⟨cur.rx_bytes, cur.tx_bytes, cur.rx_packets, cur.tx_packets, some now⟩) ∧
    (∀ (s : DiskState) (prev : List DiskStat) (pt now : Rat) (cur : List DiskStat),
      s.prev_disk_stats = some prev → s.prev_time = some pt →
      durationSince now pt ≤ 0 →
      getDiskIoMetrics s (some cur) now = (⟨some cur, some now⟩, none)) := by
  constructor
  · intro s pt now cur conn ic hpt hle
    have hne : ¬ (0 < durationSince now pt) := not_lt.2 hle
    refine ⟨?_, rfl⟩
    intro p hp
    cases conn with
    | none =>
      simp [networkGetMetrics, hpt, hne] at hp
      rcases hp with rfl | rfl | rfl | rfl | rfl <;> rfl
    | some c =>
      simp [networkGetMetrics, hpt, hne] at hp
      rcases hp with rfl | rfl | rfl | rfl | rfl | rfl <;> rfl
  · intro s prev pt now cur h1 h2 hle
    have hne : ¬ (0 < durationSince now pt) := not_lt.2 hle
    obtain ⟨pds, ptime⟩ := s
    simp only at h1 h2
    subst h1
    subst h2
    simp [getDiskIoMetrics, hne]

/-- Witness for C1 (corrected) at concrete zero-elapsed samples. -/
theorem claim1_witness :
    (networkGetMetrics ⟨0, 0, 0, 0, some 0⟩ 0 ⟨5, 5, 5, 5⟩ none 1).1 =
      (⟨5, 5, 5, 5, some 0⟩ : NetworkState) ∧
    getDiskIoMetrics ⟨some [], some 0⟩ (some []) 0 = (⟨some [], some 0⟩, none) :=
  ⟨(claim1_amended.1 ⟨0, 0, 0, 0, some 0⟩ 0 0 ⟨5, 5, 5, 5⟩ none 1 rfl
      (by norm_num [durationSince])).2,
   claim1_amended.2 ⟨some [], some 0⟩ [] 0 0 [] rfl rfl
      (by norm_num [durationSince])⟩

theorem f64AsU64_zero : f64AsU64 0 = 0 := rfl

theorem u64AsI64_zero : u64AsI64 0 = 0 := rfl

/-- C3 (confirmed): across two consecutive samples separated by positive
elapsed time, a counter family whose current value is strictly below its
previous value yields a saturated delta of 0 and therefore an emitted rate
of exactly `Int 0` — never negative, never wrapped.  Shown for all four
network families and for the disk read-byte family (when every matched
whole-device row has a non-increasing counter). -/
theorem claim3_counter_reset :
    (∀ (s0 : NetworkState) (t1 t2 : Rat) (tot1 tot2 : NetworkTotals)
        (c1 c2 : Option Int) (i1 i2 : Nat),
      0 < durationSince t2 t1 →
      (tot2.rx_bytes < tot1.rx_bytes →
        List.lookup "network.rx_bytes_per_sec"
          (networkGetMetrics (networkGetMetrics s0 t1 tot1 c1 i1).1 t2 tot2 c2 i2).2 =
          some (.int 0)) ∧
      (tot2.tx_bytes < tot1.tx_bytes →
        List.lookup "network.tx_bytes_per_sec"
          (networkGetMetrics (networkGetMetrics s0 t1 tot1 c1 i1).1 t2 tot2 c2 i2).2 =
          some (.int 0)) ∧
      (tot2.rx_packets < tot1.rx_packets →
        List.lookup "network.rx_packets_per_sec"
          (networkGetMetrics (networkGetMetrics s0 t1 tot1 c1 i1).1 t2 tot2 c2 i2).2 =
          some (.int 0)) ∧
      (tot2.tx_packets < tot1.tx_packets →
        List.lookup "network.tx_packets_per_sec"
          (networkGetMetrics (networkGetMetrics s0 t1 tot1 c1 i1).1 t2 tot2 c2 i2).2 =
          some (.int 0))) ∧
    (∀ (cur1 cur2 : List DiskStat) (t1 t2 : Rat) (m : Metrics),
      0 < durationSince t2 t1 →
      (∀ c ∈ cur2, ∀ p ∈ cur1, p.name = c.name → c.sectors_read ≤ p.sectors_read) →
      (getDiskIoMetrics (getDiskIoMetrics DiskState.new (some cur1) t1).1
        (some cur2) t2).2 = some m →
      List.lookup "disk.io_read_bytes_per_sec" m = some (.int 0)) := by
  constructor
  · intro s0 t1 t2 tot1 tot2 c1 c2 i1 i2 hd
    refine ⟨fun h => ?_, fun h => ?_, fun h => ?_, fun h => ?_⟩ <;>
      (first
        | (have hdelta : tot2.rx_bytes - tot1.rx_bytes = 0 :=
            Nat.sub_eq_zero_of_le (le_of_lt h)
           simp [networkGetMetrics, hd, hdelta, List.lookup,
             f64AsU64_zero, u64AsI64_zero])
        | (have hdelta : tot2.tx_bytes - tot1.tx_bytes = 0 :=
            Nat.sub_eq_zero_of_le (le_of_lt h)
           simp [networkGetMetrics, hd, hdelta, List.lookup,
             f64AsU64_zero, u64AsI64_zero])
        | (have hdelta : tot2.rx_packets - tot1.rx_packets = 0 :=
            Nat.sub_eq_zero_of_le (le_of_lt h)
           simp [networkGetMetrics, hd, hdelta, List.lookup,
             f64AsU64_zero, u64AsI64_zero])
        | (have hdelta : tot2.tx_packets - tot1.tx_packets = 0 :=
            Nat.sub_eq_zero_of_le (le_of_lt h)
           simp [networkGetMetrics, hd, hdelta, List.lookup,
             f64AsU64_zero, u64AsI64_zero]))
  · intro cur1 cur2 t1 t2 m hd hle hm
    have hagg : (diskAggregate cur2 cur1).read_bytes = 0 :=
      diskAgg_read_zero cur2 cur1 hle
    simp only [getDiskIoMetrics, DiskState.new, hd, if_true] at hm
    obtain rfl := (Option.some.inj hm).symm
    simp [List.lookup, hagg, f64AsU64_zero, u64AsI64_zero]

/-- Witness for C3: a fresh network monitor sampled at total 100 then at
total 50 one second later reports a rate of exactly 0; same for the disk
read family with `sda` dropping from 1000 to 900 sectors. -/
theorem claim3_witness :
    List.lookup "network.rx_bytes_per_sec"
      (networkGetMetrics
        (networkGetMetrics (NetworkState.new ⟨0, 0, 0, 0⟩) 0 ⟨100, 100, 100, 100⟩ none 1).1
        1 ⟨50, 100, 100, 100⟩ none 1).2 = some (.int 0) ∧
    List.lookup "disk.io_read_bytes_per_sec"
      ((getDiskIoMetrics (getDiskIoMetrics DiskState.new
          (some [⟨"sda", 10, 10, 1000, 1000⟩]) 0).1
        (some [⟨"sda", 10, 10, 900, 1000⟩]) 1).2.getD []) = some (.int 0) := by
  constructor
  · exact ((claim3_counter_reset.1 (NetworkState.new ⟨0, 0, 0, 0⟩) 0 1
      ⟨100, 100, 100, 100⟩ ⟨50, 100, 100, 100⟩ none none 1 1
      (by norm_num [durationSince])).1 (by norm_num))
  · have h := claim3_counter_reset.2 [⟨"sda", 10, 10, 1000, 1000⟩]
      [⟨"sda", 10, 10, 900, 1000⟩] 0 1
    have hm : (getDiskIoMetrics (getDiskIoMetrics DiskState.new
        (some [⟨"sda", 10, 10, 1000, 1000⟩]) 0).1
        (some [⟨"sda", 10, 10, 900, 1000⟩]) 1).2 =
        some ((getDiskIoMetrics (getDiskIoMetrics DiskState.new
          (some [⟨"sda", 10, 10, 1000, 1000⟩]) 0).1
          (some [⟨"sda", 10, 10, 900, 1000⟩]) 1).2.getD []) := by
      norm_num [getDiskIoMetrics, DiskState.new, durationSince]
    exact h ((getDiskIoMetrics (getDiskIoMetrics DiskState.new
        (some [⟨"sda", 10, 10, 1000, 1000⟩]) 0).1
        (some [⟨"sda", 10, 10, 900, 1000⟩]) 1).2.getD [])
      (by norm_num [durationSince])
      (by intro c hc p hp hn
          simp at hc hp
          subst hc; subst hp; norm_num)
      hm

/-- C6 (confirmed): every item of the GetStats response has a key that does
not begin with `_` (in particular `_timestamp` is filtered), comes from the
accelerator sample, and — the accelerator key namespace being
`accelerator.*`/`gpu.*` — never begins with `cpu.`, `memory.`, `disk.` or
`network.` (the domain monitors are not consulted on this surface at all). -/
theorem claim6_stats_surface (ts : Rat) (gpu : Metrics)
    (hk : ∀ p ∈ gpu, isAcceleratorKey p.1 = true) :
    ∀ p ∈ getStatsItems ts gpu,
      strStarts p.1 "_" = false ∧ p ∈ gpu ∧
      strStarts p.1 "cpu." = false ∧ strStarts p.1 "memory." = false ∧
      strStarts p.1 "disk." = false ∧ strStarts p.1 "network." = false := by
  intro p hp
  rw [getStatsItems, sampleMetrics, List.mem_filter] at hp
  obtain ⟨hmem, hpred⟩ := hp
  have hnu : strStarts p.1 "_" = false := by
    cases hcon : strStarts p.1 "_" with
    | false => rfl
    | true => rw [hcon] at hpred; simp at hpred
  rcases List.mem_cons.mp hmem with heq | hgpu
  · exfalso
    rw [heq] at hnu
    have h2 : strStarts "_timestamp" "_" = false := hnu
    exact absurd h2 (by decide)
  · have hacc := hk p hgpu
    rw [isAcceleratorKey, Bool.or_eq_true] at hacc
    refine ⟨hnu, hgpu, ?_, ?_, ?_, ?_⟩ <;>
      (rcases hacc with ha | ha <;>
        exact strStarts_false_of_ne_head rfl rfl (by decide) ha)

/-- Witness for C6 on a one-entry accelerator sample. -/
theorem claim6_witness :
    strStarts "gpu.0.name" "_" = false ∧
    ("gpu.0.name", MetricValue.str "X") ∈
      ([("gpu.0.name", MetricValue.str "X")] : Metrics) ∧
    strStarts "gpu.0.name" "cpu." = false ∧
    strStarts "gpu.0.name" "memory." = false ∧
    strStarts "gpu.0.name" "disk." = false ∧
    strStarts "gpu.0.name" "network." = false := by
  have h := claim6_stats_surface 0 [("gpu.0.name", MetricValue.str "X")]
    (by intro p hp
        have hpe : p = ("gpu.0.name", MetricValue.str "X") := by simpa using hp
        rw [hpe]
        decide)
    ("gpu.0.name", MetricValue.str "X")
    (by rw [show getStatsItems 0 [("gpu.0.name", MetricValue.str "X")] =
          [("gpu.0.name", MetricValue.str "X")] from rfl]
        exact List.mem_singleton.mpr rfl)
  exact h

/-- If a key is absent from the front list, lookup continues in the back. -/
theorem lookup_append_none {l₁ l₂ : Metrics} {k : String}
    (h : List.lookup k l₁ = none) :
    List.lookup k (l₁ ++ l₂) = List.lookup k l₂ := by
  induction l₁ with
  | nil => rfl
  | cons p t ih =>
    obtain ⟨a, b⟩ := p
    by_cases hk : (k == a) = true
    · simp [List.lookup, hk] at h
    · simp only [Bool.not_eq_true] at hk
      simp only [List.cons_append, List.lookup, hk] at h ⊢
      exact ih h

/-- C4 (confirmed): every emitted usage-percentage metric of the memory and
disk monitors lies in [0, 100], and is exactly 0 when the corresponding
denominator is 0.  For the memory monitor the platform invariant
`used ≤ total` (sysinfo computes used = total − available) is assumed; for
the disk monitor `used = total − available` is computed by the code itself,
so the bound is unconditional. -/
theorem claim4_usage_percent_bounds
    (inp : MemoryInputs) (hm : inp.used_memory ≤ inp.total_memory)
    (hs : inp.used_swap ≤ inp.total_swap)
    (s : DiskState) (ds : List DiskInfo) (rr : Option (List DiskStat)) (now : Rat) :
    (∀ v : Rat, List.lookup "memory.usage_percent" (memoryGetMetrics inp) =
        some (.float v) → 0 ≤ v ∧ v ≤ 100) ∧
    (inp.total_memory = 0 →
      List.lookup "memory.usage_percent" (memoryGetMetrics inp) = some (.float 0)) ∧
    (∀ v : Rat, List.lookup "memory.swap_usage_percent" (memoryGetMetrics inp) =
        some (.float v) → 0 ≤ v ∧ v ≤ 100) ∧
    (inp.total_swap = 0 →
      List.lookup "memory.swap_usage_percent" (memoryGetMetrics inp) =
        some (.float 0)) ∧
    (∀ v : Rat, List.lookup "disk.usage_percent" (diskGetMetrics s ds rr now).2 =
        some (.float v) → 0 ≤ v ∧ v ≤ 100) ∧
    ((ds.foldl diskLoopStep ([], 0, 0)).2.1 = 0 →
      List.lookup "disk.usage_percent" (diskGetMetrics s ds rr now).2 =
        some (.float 0)) ∧
    (∀ v : Rat, List.lookup "disk.root.usage_percent" (diskGetMetrics s ds rr now).2 =
        some (.float v) → 0 ≤ v ∧ v ≤ 100) ∧
    ((∀ d ∈ ds, d.mount_point = "/" → d.total_space = 0) →
      (List.lookup "disk.root.usage_percent" (diskGetMetrics s ds rr now).2 = none ∨
       List.lookup "disk.root.usage_percent" (diskGetMetrics s ds rr now).2 =
         some (.float 0))) := by
  have hlum : List.lookup "memory.usage_percent" (memoryGetMetrics inp) =
      some (.float (usagePercent inp.used_memory inp.total_memory)) := rfl
  have hlus : List.lookup "memory.swap_usage_percent" (memoryGetMetrics inp) =
      some (.float (usagePercent inp.used_swap inp.total_swap)) := rfl
  have hio1 : List.lookup "disk.usage_percent"
      ((getDiskIoMetrics s rr now).2.getD []) = none :=
    ioBlock_lookup_none s rr now _ (by decide) (by decide) (by decide)
      (by decide) (by decide)
  have hio2 : List.lookup "disk.root.usage_percent"
      ((getDiskIoMetrics s rr now).2.getD []) = none :=
    ioBlock_lookup_none s rr now _ (by decide) (by decide) (by decide)
      (by decide) (by decide)
  have heq : (diskGetMetrics s ds rr now).2 =
      ((getDiskIoMetrics s rr now).2.getD []) ++
      (("disk.usage_percent", .float (usagePercent
          (ds.foldl diskLoopStep ([], 0, 0)).2.2
          (ds.foldl diskLoopStep ([], 0, 0)).2.1)) ::
       ("disk.used_bytes", .int (u64AsI64 (ds.foldl diskLoopStep ([], 0, 0)).2.2)) ::
       ("disk.total_bytes", .int (u64AsI64 (ds.foldl diskLoopStep ([], 0, 0)).2.1)) ::
       (ds.foldl diskLoopStep ([], 0, 0)).1) := rfl
  have hdu : (ds.foldl diskLoopStep ([], 0, 0)).2.2 ≤
      (ds.foldl diskLoopStep ([], 0, 0)).2.1 :=
    diskLoop_used_le ds ([], 0, 0) (le_refl 0)
  refine ⟨?_, ?_, ?_, ?_, ?_, ?_, ?_, ?_⟩
  · intro v hv
    rw [hlum] at hv
    obtain rfl : usagePercent inp.used_memory inp.total_memory = v :=
      MetricValue.float.inj (Option.some.inj hv)
    exact ⟨usagePercent_nonneg _ _, usagePercent_le_100 _ _ hm⟩
  · intro h0
    rw [hlum, h0, usagePercent_zero_total]
  · intro v hv
    rw [hlus] at hv
    obtain rfl : usagePercent inp.used_swap inp.total_swap = v :=
      MetricValue.float.inj (Option.some.inj hv)
    exact ⟨usagePercent_nonneg _ _, usagePercent_le_100 _ _ hs⟩
  · intro h0
    rw [hlus, h0, usagePercent_zero_total]
  · intro v hv
    rw [heq, lookup_append_none hio1] at hv
    have hv2 : some (MetricValue.float (usagePercent
        (ds.foldl diskLoopStep ([], 0, 0)).2.2
        (ds.foldl diskLoopStep ([], 0, 0)).2.1)) = some (.float v) := hv
    obtain rfl := MetricValue.float.inj (Option.some.inj hv2)
    exact ⟨usagePercent_nonneg _ _, usagePercent_le_100 _ _ hdu⟩
  · intro h0
    rw [heq, lookup_append_none hio1]
    show some (MetricValue.float (usagePercent
        (ds.foldl diskLoopStep ([], 0, 0)).2.2
        (ds.foldl diskLoopStep ([], 0, 0)).2.1)) = some (.float 0)
    rw [h0, usagePercent_zero_total]
  · intro v hv
    rw [heq, lookup_append_none hio2] at hv
    have hv2 : List.lookup "disk.root.usage_percent"
        (ds.foldl diskLoopStep ([], 0, 0)).1 = some (.float v) := hv
    exact diskLoop_root_bounds ds ([], 0, 0)
      (by intro w hw; simp [List.lookup] at hw) v hv2
  · intro hz
    have h3 := diskLoop_root_zero ds ([], 0, 0) hz (Or.inl rfl)
    rcases h3 with h3 | h3
    · left
      rw [heq, lookup_append_none hio2]
      exact h3
    · right
      rw [heq, lookup_append_none hio2]
      exact h3

/-- Witness for C4 at all-zero denominators. -/
theorem claim4_witness :
    List.lookup "memory.usage_percent" (memoryGetMetrics ⟨0, 0, 0, 0, 0, 0, 0⟩) =
      some (.float 0) ∧
    List.lookup "disk.usage_percent" (diskGetMetrics ⟨none, none⟩ [] none 0).2 =
      some (.float 0) := by
  have h := claim4_usage_percent_bounds ⟨0, 0, 0, 0, 0, 0, 0⟩ (le_refl 0)
    (le_refl 0) ⟨none, none⟩ [] none 0
  exact ⟨h.2.1 rfl, h.2.2.2.2.2.1 rfl⟩

/-- A key found in the front list wins over the back list. -/
theorem lookup_append_some {l₁ l₂ : Metrics} {k : String} {v : MetricValue}
    (h : List.lookup k l₁ = some v) :
    List.lookup k (l₁ ++ l₂) = some v := by
  induction l₁ with
  | nil => simp [List.lookup] at h
  | cons p t ih =>
    obtain ⟨a, b⟩ := p
    by_cases hk : (k == a) = true
    · simp only [List.lookup, hk] at h
      simp only [List.cons_append, List.lookup, hk]
      exact h
    · simp only [Bool.not_eq_true] at hk
      simp only [List.lookup, hk] at h
      simp only [List.cons_append, List.lookup, hk]
      exact ih h

/-- C2 (confirmed): a freshly constructed monitor's first sample contains no
rate-suffixed (`*_per_sec`) key, and a rate key is present in a snapshot iff
a prior window exists and the elapsed time since it is positive (for the
disk monitor, given a successful diskstats read — a failed read omits the
keys by the stated failure policy). -/
theorem claim2_rate_window :
    (∀ (init : NetworkTotals) (now : Rat) (cur : NetworkTotals)
        (conn : Option Int) (ic : Nat),
      ∀ p ∈ (networkGetMetrics (NetworkState.new init) now cur conn ic).2,
        strEnds p.1 "_per_sec" = false) ∧
    (∀ (ds : List DiskInfo) (rr : Option (List DiskStat)) (now : Rat),
      ∀ p ∈ (diskGetMetrics DiskState.new ds rr now).2,
        strEnds p.1 "_per_sec" = false) ∧
    (∀ (s : NetworkState) (now : Rat) (cur : NetworkTotals)
        (conn : Option Int) (ic : Nat),
      (∃ v, List.lookup "network.rx_bytes_per_sec"
          (networkGetMetrics s now cur conn ic).2 = some v) ↔
      (∃ pt, s.prev_time = some pt ∧ 0 < durationSince now pt)) ∧
    (∀ (s : DiskState) (ds : List DiskInfo) (cur : List DiskStat) (now : Rat),
      (∃ v, List.lookup "disk.io_read_bytes_per_sec"
          (diskGetMetrics s ds (some cur) now).2 = some v) ↔
      (∃ prev pt, s.prev_disk_stats = some prev ∧ s.prev_time = some pt ∧
        0 < durationSince now pt)) := by
  have hbaseNone : ∀ (s : DiskState) (rr : Option (List DiskStat))
      (ds : List DiskInfo) (now : Rat),
      (getDiskIoMetrics s rr now).2 = none →
      List.lookup "disk.io_read_bytes_per_sec" (diskGetMetrics s ds rr now).2 =
        none := by
    intro s rr ds now hio
    have heq : (diskGetMetrics s ds rr now).2 =
        ((getDiskIoMetrics s rr now).2.getD []) ++
        (("disk.usage_percent", .float (usagePercent
            (ds.foldl diskLoopStep ([], 0, 0)).2.2
            (ds.foldl diskLoopStep ([], 0, 0)).2.1)) ::
         ("disk.used_bytes", .int (u64AsI64 (ds.foldl diskLoopStep ([], 0, 0)).2.2)) ::
         ("disk.total_bytes", .int (u64AsI64 (ds.foldl diskLoopStep ([], 0, 0)).2.1)) ::
         (ds.foldl diskLoopStep ([], 0, 0)).1) := rfl
    rw [heq, hio]
    show List.lookup "disk.io_read_bytes_per_sec"
      (("disk.usage_percent", _) :: ("disk.used_bytes", _) ::
        ("disk.total_bytes", _) :: (ds.foldl diskLoopStep ([], 0, 0)).1) = none
    show List.lookup "disk.io_read_bytes_per_sec"
      (ds.foldl diskLoopStep ([], 0, 0)).1 = none
    rw [diskLoop_lookup_other _ (by decide) (by decide) (by decide) (by decide)]
    rfl
  refine ⟨?_, ?_, ?_, ?_⟩
  · intro init now cur conn ic p hp
    cases conn with
    | none =>
      simp [networkGetMetrics, NetworkState.new] at hp
      rcases hp with rfl | rfl | rfl | rfl | rfl <;> rfl
    | some c =>
      simp [networkGetMetrics, NetworkState.new] at hp
      rcases hp with rfl | rfl | rfl | rfl | rfl | rfl <;> rfl
  · intro ds rr now p hp
    have hio : (getDiskIoMetrics DiskState.new rr now).2 = none := by
      cases rr <;> rfl
    have heq : (diskGetMetrics DiskState.new ds rr now).2 =
        ((getDiskIoMetrics DiskState.new rr now).2.getD []) ++
        (("disk.usage_percent", .float (usagePercent
            (ds.foldl diskLoopStep ([], 0, 0)).2.2
            (ds.foldl diskLoopStep ([], 0, 0)).2.1)) ::
         ("disk.used_bytes", .int (u64AsI64 (ds.foldl diskLoopStep ([], 0, 0)).2.2)) ::
         ("disk.total_bytes", .int (u64AsI64 (ds.foldl diskLoopStep ([], 0, 0)).2.1)) ::
         (ds.foldl diskLoopStep ([], 0, 0)).1) := rfl
    rw [heq, hio] at hp
    simp only [Option.getD_none, List.nil_append, List.mem_cons] at hp
    rcases hp with rfl | rfl | rfl | hp
    · rfl
    · rfl
    · rfl
    · rcases diskLoop_mem p ds ([], 0, 0) hp with hnil | hk
      · simp at hnil
      · simp only [List.mem_cons] at hk
        rcases hk with hk | hk | hk | hk | hk <;>
          first
            | (rw [hk]; rfl)
            | simp at hk
  · intro s now cur conn ic
    constructor
    · rintro ⟨v, hv⟩
      cases hpt : s.prev_time with
      | none =>
        exfalso
        cases conn <;> simp [networkGetMetrics, hpt, List.lookup] at hv
      | some pt =>
        by_cases hd : 0 < durationSince now pt
        · exact ⟨pt, rfl, hd⟩
        · exfalso
          cases conn <;> simp [networkGetMetrics, hpt, hd, List.lookup] at hv
    · rintro ⟨pt, hpt, hd⟩
      exact ⟨.int (u64AsI64 (f64AsU64 (((cur.rx_bytes - s.prev_rx_bytes : Nat) : Rat) /
          durationSince now pt))),
        by simp [networkGetMetrics, hpt, hd, List.lookup]⟩
  · intro s ds cur now
    obtain ⟨pds, ptime⟩ := s
    constructor
    · rintro ⟨v, hv⟩
      cases hpds : pds with
      | none =>
        exfalso
        subst hpds
        rw [hbaseNone ⟨none, ptime⟩ (some cur) ds now (by cases ptime <;> rfl)] at hv
        exact Option.noConfusion hv
      | some prev =>
        cases hptime : ptime with
        | none =>
          exfalso
          subst hpds hptime
          rw [hbaseNone ⟨some prev, none⟩ (some cur) ds now rfl] at hv
          exact Option.noConfusion hv
        | some pt =>
          by_cases hd : 0 < durationSince now pt
          · exact ⟨prev, pt, rfl, rfl, hd⟩
          · exfalso
            subst hpds hptime
            rw [hbaseNone ⟨some prev, some pt⟩ (some cur) ds now
              (by simp [getDiskIoMetrics, hd])] at hv
            exact Option.noConfusion hv
    · rintro ⟨prev, pt, h1, h2, hd⟩
      simp only at h1 h2
      subst h1 h2
      refine ⟨.int (u64AsI64 (f64AsU64 (((diskAggregate cur prev).read_bytes : Rat) /
          durationSince now pt))), ?_⟩
      have hlk : List.lookup "disk.io_read_bytes_per_sec"
          ((getDiskIoMetrics ⟨some prev, some pt⟩ (some cur) now).2.getD []) =
          some (.int (u64AsI64 (f64AsU64 (((diskAggregate cur prev).read_bytes : Rat) /
            durationSince now pt)))) := by
        simp [getDiskIoMetrics, hd, List.lookup]
      exact lookup_append_some hlk

/-- Witness for C2: a window plus positive elapsed time yields a present
rate key; a fresh first sample key carries no `_per_sec` suffix. -/
theorem claim2_witness :
    (∃ v, List.lookup "network.rx_bytes_per_sec"
      (networkGetMetrics ⟨0, 0, 0, 0, some 0⟩ 1 ⟨7, 7, 7, 7⟩ none 1).2 = some v) ∧
    strEnds "network.rx_bytes_total" "_per_sec" = false := by
  constructor
  · exact (claim2_rate_window.2.2.1 ⟨0, 0, 0, 0, some 0⟩ 1 ⟨7, 7, 7, 7⟩ none 1).mpr
      ⟨0, rfl, by norm_num [durationSince]⟩
  · exact claim2_rate_window.1 ⟨0, 0, 0, 0⟩ 0 ⟨0, 0, 0, 0⟩ none 0
      ("network.rx_bytes_total", .int (u64AsI64 0))
      (by simp [networkGetMetrics, NetworkState.new])

theorem get_float_of_float {m : Metrics} {k : String} {v : Rat}
    (h : List.lookup k m = some (.float v)) : get_float m k = some v := by
  rw [get_float, h]

theorem get_float_of_int {m : Metrics} {k : String} {v : Int}
    (h : List.lookup k m = some (.int v)) : get_float m k = some (v : Rat) := by
  rw [get_float, h]

theorem get_float_of_none {m : Metrics} {k : String}
    (h : List.lookup k m = none) : get_float m k = none := by
  rw [get_float, h]

theorem get_int_of_int {m : Metrics} {k : String} {v : Int}
    (h : List.lookup k m = some (.int v)) : get_int m k = some v := by
  rw [get_int, h]

theorem get_int_of_none {m : Metrics} {k : String}
    (h : List.lookup k m = none) : get_int m k = none := by
  rw [get_int, h]

theorem i64AsU64_of_nonneg {v : Int} (h0 : 0 ≤ v) (hlt : v < 2 ^ 63) :
    i64AsU64 v = v.toNat := by
  unfold i64AsU64
  rw [Int.emod_eq_of_lt h0 (lt_trans hlt (by norm_num))]

/-- C8 counterexample: converting snapshots in which `cpu.temperature_celsius`
is absent yields a DTO whose per-core `temperature` field is `none` (JSON
null), not the claimed default 0.0 — the Option-typed DTO fields are
serialized as null when their metric key is absent. -/
theorem claim8_counterexample :
    (convert_to_response "n" [] [] [] [] []).cpu.cores.map
      (fun c => c.temperature) = [none] ∧
    List.lookup "cpu.temperature_celsius" ([] : Metrics) = none := by
  exact ⟨rfl, rfl⟩

/-- C8 (corrected): in `convert_to_response`, every numeric metric present
in a captured snapshot maps to the identical numeric value of its DTO field,
and every required (non-Option) DTO field whose key is absent defaults to
0.0/0; however the Option-typed fields (per-core `temperature`, accelerator
`power` and `fanSpeed`) are `none`/null when their key is absent — they do
not default to 0.0 as claimed.  (Int-typed u64 fields are stated for values
in the i64-nonnegative range the monitors emit.) -/
theorem claim8_amended (node : String) (cm mm dm nm gm : Metrics) :
    ((∀ v : Rat, List.lookup "cpu.usage_percent" cm = some (.float v) →
        (convert_to_response node cm mm dm nm gm).cpu.overall = v) ∧
     (List.lookup "cpu.usage_percent" cm = none →
        (convert_to_response node cm mm dm nm gm).cpu.overall = 0) ∧
     (∀ v : Rat, List.lookup "cpu.load_avg_1min" cm = some (.float v) →
        (convert_to_response node cm mm dm nm gm).cpu.loadAverage[0]? = some v) ∧
     (List.lookup "cpu.load_avg_1min" cm = none →
        (convert_to_response node cm mm dm nm gm).cpu.loadAverage[0]? = some 0) ∧
     (∀ v : Int, List.lookup "cpu.process_count" cm = some (.int v) →
        (convert_to_response node cm mm dm nm gm).cpu.processes = v) ∧
     (List.lookup "cpu.process_count" cm = none →
        (convert_to_response node cm mm dm nm gm).cpu.processes = 0) ∧
     (∀ v : Int, List.lookup "cpu.thread_count" cm = some (.int v) →
        (convert_to_response node cm mm dm nm gm).cpu.threads = v) ∧
     (List.lookup "cpu.thread_count" cm = none →
        (convert_to_response node cm mm dm nm gm).cpu.threads = 0)) ∧
    (∀ i : Nat, i < cpuCountOf cm →
      ∃ c : CpuCoreDto,
        (convert_to_response node cm mm dm nm gm).cpu.cores[i]? = some c ∧
        c.id = i ∧
        (∀ v : Rat, List.lookup ("cpu.core" ++ toString i ++ ".usage_percent") cm =
          some (.float v) → c.usage = v) ∧
        (List.lookup ("cpu.core" ++ toString i ++ ".usage_percent") cm = none →
          c.usage = 0) ∧
        (∀ v : Rat, List.lookup "cpu.temperature_celsius" cm = some (.float v) →
          c.temperature = some v) ∧
        (List.lookup "cpu.temperature_celsius" cm = none →
          c.temperature = none)) ∧
    ((∀ v : Rat, List.lookup "memory.usage_percent" mm = some (.float v) →
        (convert_to_response node cm mm dm nm gm).memory.usage = v) ∧
     (List.lookup "memory.usage_percent" mm = none →
        (convert_to_response node cm mm dm nm gm).memory.usage = 0) ∧
     (∀ v : Int, List.lookup "memory.used_bytes" mm = some (.int v) →
        0 ≤ v → v < 2 ^ 63 →
        (convert_to_response node cm mm dm nm gm).memory.used = v.toNat) ∧
     (List.lookup "memory.used_bytes" mm = none →
        (convert_to_response node cm mm dm nm gm).memory.used = 0) ∧
     (∀ v : Int, List.lookup "memory.total_bytes" mm = some (.int v) →
        0 ≤ v → v < 2 ^ 63 →
        (convert_to_response node cm mm dm nm gm).memory.total = v.toNat) ∧
     (∀ v : Int, List.lookup "memory.swap_used_bytes" mm = some (.int v) →
        0 ≤ v → v < 2 ^ 63 →
        (convert_to_response node cm mm dm nm gm).memory.swap.used = v.toNat) ∧
     (∀ v : Rat, List.lookup "memory.swap_usage_percent" mm = some (.float v) →
        (convert_to_response node cm mm dm nm gm).memory.swap.percentage = v) ∧
     (List.lookup "memory.swap_usage_percent" mm = none →
        (convert_to_response node cm mm dm nm gm).memory.swap.percentage = 0)) ∧
    ((∀ v : Rat, List.lookup "disk.usage_percent" dm = some (.float v) →
        (convert_to_response node cm mm dm nm gm).disk.usage = v) ∧
     (∀ v : Int, List.lookup "disk.io_read_bytes_per_sec" dm = some (.int v) →
        0 ≤ v → v < 2 ^ 63 →
        (convert_to_response node cm mm dm nm gm).disk.ioRead = v.toNat) ∧
     (List.lookup "disk.io_read_bytes_per_sec" dm = none →
        (convert_to_response node cm mm dm nm gm).disk.ioRead = 0) ∧
     (∀ v : Int, List.lookup "disk.io_total_ops_per_sec" dm = some (.int v) →
        (convert_to_response node cm mm dm nm gm).disk.iops = v) ∧
     (List.lookup "disk.io_total_ops_per_sec" dm = none →
        (convert_to_response node cm mm dm nm gm).disk.iops = 0)) ∧
    ((∀ v : Int, List.lookup "network.rx_bytes_per_sec" nm = some (.int v) →
        0 ≤ v → v < 2 ^ 63 →
        (convert_to_response node cm mm dm nm gm).network.bytesIn = v.toNat) ∧
     (List.lookup "network.rx_bytes_per_sec" nm = none →
        (convert_to_response node cm mm dm nm gm).network.bytesIn = 0) ∧
     (∀ v : Int, List.lookup "network.connections_active" nm = some (.int v) →
        (convert_to_response node cm mm dm nm gm).network.connections = v) ∧
     (List.lookup "network.connections_active" nm = none →
        (convert_to_response node cm mm dm nm gm).network.connections = 0)) ∧
    (∀ id ∈ extractGpuIds gm,
      ∃ a : AccelDto,
        a ∈ (convert_to_response node cm mm dm nm gm).accelerators ∧
        a.id = id ∧
        (∀ v : Rat, List.lookup (s!"gpu.{id}.gpu_utilization") gm =
          some (.float v) → a.utilization = v) ∧
        (List.lookup (s!"gpu.{id}.gpu_utilization") gm = none →
          a.utilization = 0) ∧
        (∀ v : Rat, List.lookup (s!"gpu.{id}.power_usage") gm = some (.float v) →
          a.power = some v) ∧
        (List.lookup (s!"gpu.{id}.power_usage") gm = none → a.power = none) ∧
        (List.lookup (s!"gpu.{id}.fan_speed") gm = none → a.fanSpeed = none)) := by
  refine ⟨⟨?_, ?_, ?_, ?_, ?_, ?_, ?_, ?_⟩, ?_, ⟨?_, ?_, ?_, ?_, ?_, ?_, ?_, ?_⟩,
    ⟨?_, ?_, ?_, ?_, ?_⟩, ⟨?_, ?_, ?_, ?_⟩, ?_⟩
  · intro v hv
    show (get_float cm "cpu.usage_percent").getD 0 = v
    rw [get_float_of_float hv, Option.getD_some]
  · intro h
    show (get_float cm "cpu.usage_percent").getD 0 = 0
    rw [get_float_of_none h]; rfl
  · intro v hv
    show some ((get_float cm "cpu.load_avg_1min").getD 0) = some v
    rw [get_float_of_float hv, Option.getD_some]
  · intro h
    show some ((get_float cm "cpu.load_avg_1min").getD 0) = some 0
    rw [get_float_of_none h]; rfl
  · intro v hv
    show (get_int cm "cpu.process_count").getD 0 = v
    rw [get_int_of_int hv, Option.getD_some]
  · intro h
    show (get_int cm "cpu.process_count").getD 0 = 0
    rw [get_int_of_none h]; rfl
  · intro v hv
    show (get_int cm "cpu.thread_count").getD 0 = v
    rw [get_int_of_int hv, Option.getD_some]
  · intro h
    show (get_int cm "cpu.thread_count").getD 0 = 0
    rw [get_int_of_none h]; rfl
  · intro i hi
    refine ⟨⟨i, (get_float cm ("cpu.core" ++ toString i ++ ".usage_percent")).getD 0,
             (get_float cm ("cpu.core" ++ toString i ++ ".frequency_mhz")).getD 0,
             get_float cm "cpu.temperature_celsius"⟩, ?_, rfl, ?_, ?_, ?_, ?_⟩
    · show ((List.range (cpuCountOf cm)).map _)[i]? = _
      rw [List.getElem?_map]
      have hr : (List.range (cpuCountOf cm))[i]? = some i := by
        simp [List.getElem?_range, hi]
      rw [hr]
      rfl
    · intro v hv
      show (get_float cm ("cpu.core" ++ toString i ++ ".usage_percent")).getD 0 = v
      rw [get_float_of_float hv, Option.getD_some]
    · intro h
      show (get_float cm ("cpu.core" ++ toString i ++ ".usage_percent")).getD 0 = 0
      rw [get_float_of_none h]; rfl
    · intro v hv
      exact get_float_of_float hv
    · intro h
      exact get_float_of_none h
  · intro v hv
    show (get_float mm "memory.usage_percent").getD 0 = v
    rw [get_float_of_float hv, Option.getD_some]
  · intro h
    show (get_float mm "memory.usage_percent").getD 0 = 0
    rw [get_float_of_none h]; rfl
  · intro v hv h0 hlt
    show i64AsU64 ((get_int mm "memory.used_bytes").getD 0) = v.toNat
    rw [get_int_of_int hv, Option.getD_some, i64AsU64_of_nonneg h0 hlt]
  · intro h
    show i64AsU64 ((get_int mm "memory.used_bytes").getD 0) = 0
    rw [get_int_of_none h]; rfl
  · intro v hv h0 hlt
    show i64AsU64 ((get_int mm "memory.total_bytes").getD 0) = v.toNat
    rw [get_int_of_int hv, Option.getD_some, i64AsU64_of_nonneg h0 hlt]
  · intro v hv h0 hlt
    show i64AsU64 ((get_int mm "memory.swap_used_bytes").getD 0) = v.toNat
    rw [get_int_of_int hv, Option.getD_some, i64AsU64_of_nonneg h0 hlt]
  · intro v hv
    show (get_float mm "memory.swap_usage_percent").getD 0 = v
    rw [get_float_of_float hv, Option.getD_some]
  · intro h
    show (get_float mm "memory.swap_usage_percent").getD 0 = 0
    rw [get_float_of_none h]; rfl
  · intro v hv
    show (get_float dm "disk.usage_percent").getD 0 = v
    rw [get_float_of_float hv, Option.getD_some]
  · intro v hv h0 hlt
    show i64AsU64 ((get_int dm "disk.io_read_bytes_per_sec").getD 0) = v.toNat
    rw [get_int_of_int hv, Option.getD_some, i64AsU64_of_nonneg h0 hlt]
  · intro h
    show i64AsU64 ((get_int dm "disk.io_read_bytes_per_sec").getD 0) = 0
    rw [get_int_of_none h]; rfl
  · intro v hv
    show (get_int dm "disk.io_total_ops_per_sec").getD 0 = v
    rw [get_int_of_int hv, Option.getD_some]
  · intro h
    show (get_int dm "disk.io_total_ops_per_sec").getD 0 = 0
    rw [get_int_of_none h]; rfl
  · intro v hv h0 hlt
    show i64AsU64 ((get_int nm "network.rx_bytes_per_sec").getD 0) = v.toNat
    rw [get_int_of_int hv, Option.getD_some, i64AsU64_of_nonneg h0 hlt]
  · intro h
    show i64AsU64 ((get_int nm "network.rx_bytes_per_sec").getD 0) = 0
    rw [get_int_of_none h]; rfl
  · intro v hv
    show (get_int nm "network.connections_active").getD 0 = v
    rw [get_int_of_int hv, Option.getD_some]
  · intro h
    show (get_int nm "network.connections_active").getD 0 = 0
    rw [get_int_of_none h]; rfl
  · intro id hid
    refine ⟨accelEntry gm id, List.mem_map_of_mem _ hid, rfl, ?_, ?_, ?_, ?_, ?_⟩
    · intro v hv
      show (get_float gm s!"gpu.{id}.gpu_utilization").getD 0 = v
      rw [get_float_of_float hv, Option.getD_some]
    · intro h
      show (get_float gm s!"gpu.{id}.gpu_utilization").getD 0 = 0
      rw [get_float_of_none h]; rfl
    · intro v hv
      exact get_float_of_float hv
    · intro h
      exact get_float_of_none h
    · intro h
      exact get_float_of_none h

/-- Witness for C8 (corrected): `cpu.usage_percent = 42.5` (= 85/2) maps to
`cpu.overall = 42.5`, an Int byte counter maps identically, and an absent
key fills the required field with 0. -/
theorem claim8_witness :
    (convert_to_response "n" [("cpu.usage_percent", .float (85 / 2))]
      [("memory.used_bytes", .int 1024)] [] [] []).cpu.overall = 85 / 2 ∧
    (convert_to_response "n" [("cpu.usage_percent", .float (85 / 2))]
      [("memory.used_bytes", .int 1024)] [] [] []).memory.used = 1024 ∧
    (convert_to_response "n" [("cpu.usage_percent", .float (85 / 2))]
      [("memory.used_bytes", .int 1024)] [] [] []).disk.ioRead = 0 := by
  have h := claim8_amended "n" [("cpu.usage_percent", .float (85 / 2))]
    [("memory.used_bytes", .int 1024)] [] [] []
  refine ⟨h.1.1 (85 / 2) rfl, ?_, h.2.2.2.1.2.2.1 rfl⟩
  have h2 := h.2.2.1.2.2.1 1024 rfl (by norm_num) (by norm_num)
  simpa using h2
